import Mathlib

/-!
Verification development for the ASH stock-signal repository.

The embedding below is a shallow model, in Lean 4 over exact rationals, of the
Signal Analysis Engine found in the repository:

* `src/mods/stock_analyzer.py`  (class `StockAnalyzer`, class `BatchStockAnalyzer`)
  — modelled in namespace `SA` and namespace `Batch`;
* `src/app2.py`  (class `StockSignalAnalyzer`) — modelled in namespace `App2`;
* `src/old/app.py` (the older `StockAnalyzer` variant) — momentum-relevant part
  modelled in namespace `OldApp`.

Modelling conventions:
* pandas floating-point numbers are modelled as exact rationals (`ℚ`);
* a pandas NaN cell (missing rolling window, or a 0/0 division) is modelled as
  `none : Option ℚ`; every comparison against a NaN value in Python is `False`,
  which the `Option`-aware comparison helpers below reproduce;
* the square root used by Bollinger bands and the risk metrics is threaded as an
  explicit function parameter `sqrtFn : ℚ → ℚ`; theorems that depend on a
  property of the square root state that property as a hypothesis (only
  `sqrtFn 0 = 0` is ever needed, which holds for the IEEE square root);
* `datetime.now()` is threaded as an explicit `now : String` argument, so that
  determinism can be stated about it.
-/

/-- One OHLCV bar of a series (`open` is a Lean keyword, hence `openP`). -/
structure Bar where
  openP  : ℚ
  high   : ℚ
  low    : ℚ
  close  : ℚ
  volume : ℚ
deriving DecidableEq, Repr

/-- The enriched values of one bar after `calculate_indicators`
(`calculate_all_indicators` in `src/app2.py` computes the identical columns,
plus `MACD_hist` and `log_returns`, which no scorer reads).
`none` models a NaN cell. -/
structure Row where
  close       : ℚ
  volume      : ℚ
  ma5         : Option ℚ
  ma10        : Option ℚ
  ma20        : Option ℚ
  ma30        : Option ℚ
  ma60        : Option ℚ
  macd        : Option ℚ
  macdSignal  : Option ℚ
  rsi         : Option ℚ
  bbPos       : Option ℚ
  k           : Option ℚ
  d           : Option ℚ
  volumeMa5   : Option ℚ
  volFactor   : Option ℚ
deriving DecidableEq, Repr

/-- Python `a < b` where `a` may be NaN: a comparison with NaN is `False`. -/
def oLtQ : Option ℚ → ℚ → Bool
  | some a, b => decide (a < b)
  | none, _ => false

/-- Python `a > b` where `a` may be NaN. -/
def oGtQ : Option ℚ → ℚ → Bool
  | some a, b => decide (b < a)
  | none, _ => false

/-- Python `a > b` where `b` may be NaN (`a` a plain number). -/
def qGtO : ℚ → Option ℚ → Bool
  | a, some b => decide (b < a)
  | _, none => false

/-- Python `a > b` where both sides may be NaN. -/
def oGtO : Option ℚ → Option ℚ → Bool
  | some a, some b => decide (b < a)
  | _, _ => false

/-- Python `a <= b` where both sides may be NaN. -/
def oLeO : Option ℚ → Option ℚ → Bool
  | some a, some b => decide (a ≤ b)
  | _, _ => false

/-- Round a rational to the nearest integer, ties to even
(the rounding Python `round` uses). -/
def halfEven (r : ℚ) : ℤ :=
  let f := ⌊r⌋
  let frac := r - f
  if frac < 1/2 then f
  else if 1/2 < frac then f + 1
  else if f % 2 = 0 then f else f + 1

/-- Python `round(x, d)`. -/
def pyRound (x : ℚ) (d : ℕ) : ℚ :=
  (halfEven (x * 10 ^ d) : ℚ) / 10 ^ d

/-- Python `int(x)`: truncation toward zero. -/
def pyInt (x : ℚ) : ℤ :=
  if 0 ≤ x then ⌊x⌋ else ⌈x⌉

namespace Ind

/-! ### Indicator engine

Direct translation of `StockAnalyzer.calculate_indicators`
(`src/mods/stock_analyzer.py`, lines 42–84); `src/app2.py` lines 181–224 are
the same computations.  A pandas rolling column value at index `i` depends only
on the prefix of the series up to `i`, so each indicator is modelled as a
function giving the value at the *last* position of a list; the value at an
earlier bar is the same function applied to the corresponding prefix
(`List.dropLast` for the previous bar). -/

/-- The last `n` elements of a list. -/
def lastN {α : Type} (n : ℕ) (xs : List α) : List α :=
  xs.drop (xs.length - n)

/-- Maximum of a list (0 for the empty list; only used under length guards). -/
def maxD : List ℚ → ℚ
  | [] => 0
  | x :: xs => xs.foldl max x

/-- Minimum of a list (0 for the empty list; only used under length guards). -/
def minD : List ℚ → ℚ
  | [] => 0
  | x :: xs => xs.foldl min x

def closes (bars : List Bar) : List ℚ := bars.map (·.close)

def volumes (bars : List Bar) : List ℚ := bars.map (·.volume)

/-- Close of the last bar (0 for the empty list; only used under guards). -/
def lastClose (bars : List Bar) : ℚ :=
  match bars.getLast? with
  | some b => b.close
  | none => 0

/-- Volume of the last bar. -/
def lastVolume (bars : List Bar) : ℚ :=
  match bars.getLast? with
  | some b => b.volume
  | none => 0

/-- Value at the last position of `series.rolling(n).mean()`:
NaN (`none`) unless the window is full. -/
def smaLast (n : ℕ) (xs : List ℚ) : Option ℚ :=
  if xs.length < n then none
  else some ((lastN n xs).sum / (n : ℚ))

/-- The full `series.ewm(alpha, adjust=False).mean()` column:
`y₀ = x₀`, `yᵢ = α·xᵢ + (1−α)·yᵢ₋₁`. -/
def ewmCol (α : ℚ) : List ℚ → List ℚ
  | [] => []
  | x :: xs => xs.scanl (fun acc z => α * z + (1 - α) * acc) x

/-- The MACD column: `ewm(span=12) − ewm(span=26)` of the closes
(smoothing factor `2/(span+1)`). -/
def macdCol (cs : List ℚ) : List ℚ :=
  (ewmCol (2/13) cs).zipWith (· - ·) (ewmCol (2/27) cs)

/-- Latest MACD value. -/
def macdLast (cs : List ℚ) : Option ℚ := (macdCol cs).getLast?

/-- Latest MACD-signal value: `ewm(span=9)` of the MACD column. -/
def macdSignalLast (cs : List ℚ) : Option ℚ := (ewmCol (1/5) (macdCol cs)).getLast?

/-- The `delta.where(delta > 0, 0)` column.  `close.diff()` has a leading NaN;
`Series.where` replaces it by 0 because `NaN > 0` is `False`, so the column is
fully defined and starts with 0. -/
def gainCol (cs : List ℚ) : List ℚ :=
  0 :: (cs.zipWith (fun prev cur => max (cur - prev) 0) cs.tail)

/-- The `-delta.where(delta < 0, 0)` column (leading NaN replaced by 0 as above). -/
def lossCol (cs : List ℚ) : List ℚ :=
  0 :: (cs.zipWith (fun prev cur => max (prev - cur) 0) cs.tail)

/-- Latest 14-bar average gain. -/
def avgGainLast (cs : List ℚ) : Option ℚ := smaLast 14 (gainCol cs)

/-- Latest 14-bar average loss. -/
def avgLossLast (cs : List ℚ) : Option ℚ := smaLast 14 (lossCol cs)

/-- Latest RSI value: `100 − 100/(1 + gain/loss)` in IEEE arithmetic, so, on
exact values: when `loss = 0` and `gain > 0` the quotient is `+∞` and the RSI
is exactly 100; when `loss = 0` and `gain = 0` it is `0/0 = NaN` (`none`). -/
def rsiLast (cs : List ℚ) : Option ℚ :=
  match avgGainLast cs, avgLossLast cs with
  | some g, some l =>
      if l = 0 then (if g = 0 then none else some 100)
      else some (100 - 100 / (1 + g / l))
  | _, _ => none

/-- Latest 20-bar sample variance of the closes (pandas `.std()` uses
`ddof=1`, i.e. division by 19); `none` when the window is not full. -/
def var20 (cs : List ℚ) : Option ℚ :=
  if cs.length < 20 then none
  else
    let w := lastN 20 cs
    let m := w.sum / 20
    some ((w.map (fun x => (x - m) ^ 2)).sum / 19)

/-- Latest `BB_position = (close − BB_lower)/(BB_upper − BB_lower)` with
`BB_upper/lower = mean ± 2·std`.  When the bands coincide (zero window
variance) every close of the window equals the mean, so the division is
pandas `0/0 = NaN`, modelled as `none`. -/
def bbPosLast (sqrtFn : ℚ → ℚ) (cs : List ℚ) : Option ℚ :=
  match var20 cs, smaLast 20 cs with
  | some v, some m =>
      let s := sqrtFn v
      let lower := m - 2 * s
      let upper := m + 2 * s
      if upper - lower = 0 then none
      else some ((lastClose' cs - lower) / (upper - lower))
  | _, _ => none
where
  /-- Last element of a list of rationals (0 if empty; guarded). -/
  lastClose' (cs : List ℚ) : ℚ := (cs.getLast?).getD 0

/-- Latest stochastic `%K = 100·(close − min₁₄ low)/(max₁₄ high − min₁₄ low)`.
For well-formed bars (`low ≤ close ≤ high`) a zero denominator forces a zero
numerator, hence pandas NaN, modelled as `none`. -/
def kLast (bars : List Bar) : Option ℚ :=
  if bars.length < 14 then none
  else
    let w := lastN 14 bars
    let hi := maxD (w.map (·.high))
    let lo := minD (w.map (·.low))
    if hi - lo = 0 then none
    else some (100 * ((lastClose bars - lo) / (hi - lo)))

/-- Latest `%D`: 3-bar SMA of the `%K` column (NaN if any of the three `%K`
values is NaN or missing). -/
def dLast (bars : List Bar) : Option ℚ := do
  let k0 ← kLast bars
  let k1 ← kLast bars.dropLast
  let k2 ← kLast bars.dropLast.dropLast
  pure ((k0 + k1 + k2) / 3)

/-- Latest `volume_ratio = volume / volume.rolling(5).mean()`.  For real data
(volumes ≥ 0) a zero 5-bar mean forces a zero volume, i.e. pandas `0/0 = NaN`,
modelled as `none`. -/
def volFactorLast (bars : List Bar) : Option ℚ :=
  match smaLast 5 (volumes bars) with
  | some m => if m = 0 then none else some (lastVolume bars / m)
  | none => none

/-- The enriched last row of a series: the output of `calculate_indicators`
restricted to the columns any scorer or result builder reads. -/
def enrichLast (sqrtFn : ℚ → ℚ) (bars : List Bar) : Row :=
  let cs := closes bars
  { close       := lastClose bars
    volume      := lastVolume bars
    ma5         := smaLast 5 cs
    ma10        := smaLast 10 cs
    ma20        := smaLast 20 cs
    ma30        := smaLast 30 cs
    ma60        := smaLast 60 cs
    macd        := macdLast cs
    macdSignal  := macdSignalLast cs
    rsi         := rsiLast cs
    bbPos       := bbPosLast sqrtFn cs
    k           := kLast bars
    d           := dLast bars
    volumeMa5   := smaLast 5 (volumes bars)
    volFactor   := volFactorLast bars }

end Ind

/-! ### Signal categories and results -/

/-- One scoring category (`{'reasons': [...], 'score': n}`). -/
structure SigCat where
  score   : ℕ
  reasons : List String
deriving DecidableEq, Repr

/-- The patterns category (`{'patterns': [...], 'score': n}`). -/
structure PatCat where
  score    : ℕ
  patterns : List String
deriving DecidableEq, Repr

/-- The five-category signal dictionary, in its Python insertion order:
trend, momentum, volume, oscillators, patterns. -/
structure Signals where
  trend       : SigCat
  momentum    : SigCat
  volume      : SigCat
  oscillators : SigCat
  patterns    : PatCat
deriving DecidableEq, Repr

/-- The `risk_metrics` dictionary. -/
structure RiskMetrics where
  volatility  : ℚ
  sharpe      : ℚ
  maxDrawdown : ℚ
  riskLevel   : String
deriving DecidableEq, Repr

/-- The `indicators` sub-dictionary of a result (values already rounded;
`none` models a NaN that was rounded to NaN). -/
structure IndicatorsOut where
  ma5   : Option ℚ
  ma10  : Option ℚ
  ma20  : Option ℚ
  rsi   : Option ℚ
  macd  : Option ℚ
  kdK   : Option ℚ
  kdD   : Option ℚ
  bbPos : Option ℚ
deriving DecidableEq, Repr

/-- A populated analysis result.  `src/mods/stock_analyzer.py` additionally
stores `'success': True`, which is modelled by the `AnalyzeOut.ok`
constructor (`src/app2.py` has no such key but signals success the same way,
by not carrying an `'error'` key). -/
structure AnalysisResult where
  stockCode          : String
  timestamp          : String
  currentPrice       : ℚ
  priceChange        : ℚ
  volume             : ℤ
  indicators         : IndicatorsOut
  confidenceScore    : ℚ
  signal             : String
  action             : String
  positionSuggestion : String
  keyReasons         : List String
  detailedSignals    : Signals
  riskMetrics        : Option RiskMetrics
deriving DecidableEq, Repr

/-- The `_empty_result` dictionary (`'success': False` in
`src/mods/stock_analyzer.py` is modelled by the `AnalyzeOut.failure`
constructor). -/
structure EmptyResult where
  stockCode : String
  error     : String
  timestamp : String
deriving DecidableEq, Repr

/-- What `analyze` returns: either the empty/error variant or a populated
result. -/
inductive AnalyzeOut where
  | failure (e : EmptyResult)
  | ok (r : AnalysisResult)
deriving DecidableEq, Repr

/-- The confidence of a populated result, `none` on the empty variant. -/
def AnalyzeOut.confidenceQ : AnalyzeOut → Option ℚ
  | .failure _ => none
  | .ok r => some r.confidenceScore

/-- The detailed signals of a populated result. -/
def AnalyzeOut.sigs : AnalyzeOut → Option Signals
  | .failure _ => none
  | .ok r => some r.detailedSignals

/-- Whether the output is the populated variant. -/
def AnalyzeOut.isOk : AnalyzeOut → Bool
  | .failure _ => false
  | .ok _ => true

/-- Replace the timestamp field of either variant (used to state that two runs
agree on every other field). -/
def AnalyzeOut.setStamp (t : String) : AnalyzeOut → AnalyzeOut
  | .failure e => .failure { e with timestamp := t }
  | .ok r => .ok { r with timestamp := t }

/-- The RSI branch shared verbatim by all three analyzer variants:
`+10` if `30 < RSI < 70`, else `+20` if `RSI < 30` (both `False` on NaN). -/
def rsiBranchScore (rsi : Option ℚ) : ℕ :=
  if (match rsi with | some r => decide (30 < r ∧ r < 70) | none => false) then 10
  else if oLtQ rsi 30 then 20 else 0

/-- The RSI branch reasons, matching `rsiBranchScore`. -/
def rsiBranchReasons (rsi : Option ℚ) : List String :=
  if (match rsi with | some r => decide (30 < r ∧ r < 70) | none => false) then ["RSI处于健康区间"]
  else if oLtQ rsi 30 then ["RSI超卖"] else []

/-- Strict upward MACD crossing: latest `MACD > MACD_signal` and previous
`MACD <= MACD_signal` (`False` whenever a NaN is involved). -/
def macdCrossUp (latest prev : Row) : Bool :=
  oGtO latest.macd latest.macdSignal && oLeO prev.macd prev.macdSignal

namespace SA

/-! ### `StockAnalyzer` of `src/mods/stock_analyzer.py` -/

/-- Direct translation of `StockAnalyzer._analyze_signals` (lines 102–160).
The scorer reads columns through `row.get(col, default)`; after
`calculate_indicators` every column exists, so the default is never taken and
a NaN cell simply makes the comparison `False`. -/
def analyzeSignals (latest prev : Row) : Signals :=
  let t1 := qGtO latest.close latest.ma20
  let t2 := oGtO latest.ma5 latest.ma10 && oGtO latest.ma10 latest.ma20
  let mCross := macdCrossUp latest prev
  let o1 := oLtQ latest.k 20
  let o2 := oLtQ latest.bbPos (3/10)
  let v1 := oGtQ latest.volFactor (3/2)
  let v2 := decide (prev.close < latest.close) && decide (prev.volume < latest.volume)
  { trend :=
      { score := (if t1 then 15 else 0) + (if t2 then 10 else 0)
        reasons := (if t1 then ["价格站上20日线"] else []) ++
                   (if t2 then ["均线多头排列"] else []) }
    momentum :=
      { score := rsiBranchScore latest.rsi + (if mCross then 15 else 0)
        reasons := rsiBranchReasons latest.rsi ++ (if mCross then ["MACD金叉"] else []) }
    volume :=
      { score := (if v1 then 15 else 0) + (if v2 then 10 else 0)
        reasons := (if v1 then ["成交量放大"] else []) ++
                   (if v2 then ["量价齐升"] else []) }
    oscillators :=
      { score := (if o1 then 15 else 0) + (if o2 then 10 else 0)
        reasons := (if o1 then ["K值超卖"] else []) ++
                   (if o2 then ["接近布林带下轨"] else []) }
    patterns := { score := 0, patterns := [] } }

/-- Direct translation of `StockAnalyzer._calculate_confidence` (lines
162–171): the loop adds `min(category['score'], 30)` for each of the five
dictionaries (all of them carry a `'score'` key, the patterns one included),
then clamps at 100 (scores are naturals, so 0 is a lower bound for free). -/
def calcConfidence (s : Signals) : ℕ :=
  min (min s.trend.score 30 + min s.momentum.score 30 + min s.volume.score 30 +
       min s.oscillators.score 30 + min s.patterns.score 30) 100

end SA

/-- Direct translation of `_calculate_risk_metrics` (identical in
`src/mods/stock_analyzer.py` lines 233–259 and `src/app2.py` lines 450–474):
daily simple returns, annualized volatility, Sharpe-like ratio with the
zero-stdev guard, max drawdown. -/
def riskMetricsOf (sqrtFn : ℚ → ℚ) (bars : List Bar) : Option RiskMetrics :=
  if bars.length < 20 then none
  else
    let cs := Ind.closes bars
    let rets := cs.zipWith (fun prev cur => (cur - prev) / prev) cs.tail
    let n : ℚ := rets.length
    let mean := rets.sum / n
    let variance := (rets.map (fun r => (r - mean) ^ 2)).sum / (n - 1)
    let std := sqrtFn variance
    let volatility := std * sqrtFn 252 * 100
    let sharpe := if 0 < std then mean / std * sqrtFn 252 else 0
    let cumulative := (rets.scanl (fun acc r => acc * (1 + r)) 1).tail
    let runningMax :=
      match cumulative with
      | [] => []
      | x :: xs => xs.scanl max x
    let drawdown := cumulative.zipWith (fun c m => (c - m) / m) runningMax
    let maxDd := (match drawdown with
      | [] => (0 : ℚ)
      | x :: xs => xs.foldl min x) * 100
    some { volatility := pyRound volatility 2
           sharpe := pyRound sharpe 3
           maxDrawdown := pyRound |maxDd| 2
           riskLevel := if 40 < volatility then "高" else if 20 < volatility then "中" else "低" }

/-- The signal/action/position mapping shared by all analyzer variants. -/
def signalActionOf (confidence : ℕ) : String × String × String :=
  if 75 ≤ confidence then ("强烈买入", "BUY", "中等仓位(30-50%)")
  else if 60 ≤ confidence then ("买入", "BUY", "轻仓位(20-30%)")
  else if 45 ≤ confidence then ("关注", "HOLD", "观望")
  else ("回避", "SELL", "不建议")

namespace SA

/-- Direct translation of `StockAnalyzer._generate_result` (lines 173–231).
`key_reasons` walks the signal dictionaries in insertion order and collects
from those carrying a `'reasons'` key — the patterns dictionary has none, so
it contributes nothing here. -/
def generateResult (sqrtFn : ℚ → ℚ) (stockCode now : String) (bars : List Bar)
    (latest prev : Row) (signals : Signals) (confidence : ℕ) : AnalysisResult :=
  let sap := signalActionOf confidence
  { stockCode := stockCode
    timestamp := now
    currentPrice := pyRound latest.close 2
    priceChange := pyRound ((latest.close - prev.close) / prev.close * 100) 2
    volume := pyInt latest.volume
    indicators :=
      { ma5 := latest.ma5.map (pyRound · 2)
        ma10 := latest.ma10.map (pyRound · 2)
        ma20 := latest.ma20.map (pyRound · 2)
        rsi := latest.rsi.map (pyRound · 2)
        macd := latest.macd.map (pyRound · 4)
        kdK := latest.k.map (pyRound · 2)
        kdD := latest.d.map (pyRound · 2)
        bbPos := latest.bbPos.map (pyRound · 3) }
    confidenceScore := pyRound (confidence : ℚ) 1
    signal := sap.1
    action := sap.2.1
    positionSuggestion := sap.2.2
    keyReasons := (signals.trend.reasons ++ signals.momentum.reasons ++
                   signals.volume.reasons ++ signals.oscillators.reasons).take 5
    detailedSignals := signals
    riskMetrics := riskMetricsOf sqrtFn bars }

/-- Direct translation of `StockAnalyzer.analyze` (lines 86–100), composed
with `calculate_indicators` the way every caller in the repository invokes it
(`analyze_stock_simple`, `BatchStockAnalyzer.analyze_all`): fewer than 30
bars (an empty fetch included) yields `_empty_result`, otherwise the scorer
runs on the enriched last and previous rows. -/
def analyze (sqrtFn : ℚ → ℚ) (stockCode now : String) (bars : List Bar) : AnalyzeOut :=
  if bars.length < 30 then
    .failure { stockCode := stockCode, error := "数据不足或获取失败", timestamp := now }
  else
    let latest := Ind.enrichLast sqrtFn bars
    let prev := Ind.enrichLast sqrtFn bars.dropLast
    let signals := analyzeSignals latest prev
    let confidence := calcConfidence signals
    .ok (generateResult sqrtFn stockCode now bars latest prev signals confidence)

end SA

namespace App2

/-! ### `StockSignalAnalyzer` of `src/app2.py` -/

/-- `MA5` at `df.iloc[-6]`, i.e. the 5-bar SMA of the closes with the last
five bars removed (used by the trend-slope test). -/
def ma5Prev6 (cs : List ℚ) : Option ℚ :=
  Ind.smaLast 5 (cs.take (cs.length - 5))

/-- Direct translation of `StockSignalAnalyzer._analyze_trend` (lines
249–269).  The slope test computes
`(MA5 − MA5[-6]) / MA5[-6] * 100 > 1`; in IEEE arithmetic a zero denominator
gives `+∞` (condition holds) when the numerator is positive, `−∞` or NaN
(condition fails) otherwise. -/
def analyzeTrend (latest : Row) (ma5p6 : Option ℚ) : SigCat :=
  let t1 := oGtO latest.ma5 latest.ma10 && oGtO latest.ma10 latest.ma20
  let t2 := qGtO latest.close latest.ma20
  let t3 := match latest.ma5, ma5p6 with
    | some a, some b => if b = 0 then decide (0 < a) else decide (1 < (a - b) / b * 100)
    | _, _ => false
  { score := (if t1 then 25 else 0) + (if t2 then 15 else 0) + (if t3 then 10 else 0)
    reasons := (if t1 then ["均线多头排列"] else []) ++
               (if t2 then ["价格站上20日线"] else []) ++
               (if t3 then ["短期均线上涨"] else []) }

/-- Direct translation of `StockSignalAnalyzer._analyze_momentum` (lines
271–292): the RSI branch, then `+25` on a strict MACD upward crossing, `elif`
`+15` when MACD is above zero. -/
def analyzeMomentum (latest prev : Row) : SigCat :=
  let mCross := macdCrossUp latest prev
  let mZero := oGtQ latest.macd 0
  { score := rsiBranchScore latest.rsi +
      (if mCross then 25 else if mZero then 15 else 0)
    reasons := rsiBranchReasons latest.rsi ++
      (if mCross then ["MACD金叉形成"] else if mZero then ["MACD在零轴上方"] else []) }

/-- Direct translation of `StockSignalAnalyzer._analyze_volume` (lines
294–311). -/
def analyzeVolume (latest prev : Row) : SigCat :=
  let v1 := oGtQ latest.volFactor (3/2)
  let v2 := decide (prev.close < latest.close) && decide (prev.volume < latest.volume)
  let v3 := qGtO latest.volume latest.volumeMa5
  { score := (if v1 then 20 else 0) + (if v2 then 15 else 0) + (if v3 then 10 else 0)
    reasons := (if v1 then ["成交量放大"] else []) ++
               (if v2 then ["量价齐升"] else []) ++
               (if v3 then ["成交量高于5日均量"] else []) }

/-- Direct translation of `StockSignalAnalyzer._analyze_oscillators` (lines
313–334). -/
def analyzeOscillators (latest : Row) : SigCat :=
  let o1 := oLtQ latest.k 20
  let o2 := oGtO latest.k latest.d
  let o3 := oLtQ latest.bbPos (3/10)
  let o4 := oGtQ latest.bbPos (7/10)
  { score := (if o1 then 15 else if o2 then 10 else 0) +
             (if o3 then 10 else if o4 then 5 else 0)
    reasons := (if o1 then ["K值超卖"] else if o2 then ["KD金叉状态"] else []) ++
               (if o3 then ["接近布林带下轨"] else if o4 then ["接近布林带上轨"] else []) }

/-- Direct translation of `StockSignalAnalyzer._is_hammer` (lines 353–359):
lower shadow strictly more than twice the body and upper shadow strictly less
than half the body. -/
def isHammer (candle : Bar) : Bool :=
  let bodySize := |candle.close - candle.openP|
  let lowerShadow := min candle.close candle.openP - candle.low
  let upperShadow := candle.high - max candle.close candle.openP
  decide (bodySize * 2 < lowerShadow) && decide (upperShadow < bodySize * (1/2))

/-- Direct translation of `StockSignalAnalyzer._is_morning_star` (lines
361–371). -/
def isMorningStar (day1 day2 day3 : Bar) : Bool :=
  decide (day1.close < day1.openP) && decide (day2.openP < day1.close) &&
  decide (day3.openP < day3.close) && decide ((day1.openP + day1.close) / 2 < day3.close)

/-- Direct translation of `StockSignalAnalyzer._check_patterns` (lines
336–351): hammer on the last of the most recent five bars, morning star on
the last three; each detected pattern contributes 10 points. -/
def checkPatterns (bars : List Bar) : PatCat :=
  let recent := Ind.lastN 5 bars
  let hammerHit := match recent.getLast? with
    | some b => isHammer b
    | none => false
  let msHit := match Ind.lastN 3 recent with
    | [d1, d2, d3] => 3 ≤ recent.length && isMorningStar d1 d2 d3
    | _ => false
  let pats := (if hammerHit then ["锤子线形态"] else []) ++
              (if msHit then ["早晨之星"] else [])
  { score := pats.length * 10, patterns := pats }

/-- Direct translation of `StockSignalAnalyzer._analyze_signals`
(lines 236–247). -/
def analyzeSignalsOf (sqrtFn : ℚ → ℚ) (bars : List Bar) : Signals :=
  let latest := Ind.enrichLast sqrtFn bars
  let prev := Ind.enrichLast sqrtFn bars.dropLast
  { trend := analyzeTrend latest (ma5Prev6 (Ind.closes bars))
    momentum := analyzeMomentum latest prev
    volume := analyzeVolume latest prev
    oscillators := analyzeOscillators latest
    patterns := checkPatterns bars }

/-- Direct translation of `StockSignalAnalyzer._calculate_confidence` (lines
373–386): the loop adds `min(category['score'], 30)` for each of the five
dictionaries (the patterns one carries a `'score'` key, so it is included),
and then the patterns score is added *again*, uncapped, before clamping at
100. -/
def calcConfidence (s : Signals) : ℕ :=
  min (min s.trend.score 30 + min s.momentum.score 30 + min s.volume.score 30 +
       min s.oscillators.score 30 + min s.patterns.score 30 + s.patterns.score) 100

/-- Direct translation of `StockSignalAnalyzer._generate_result` (lines
388–448): like the canonical module, but the pattern names are appended to
the reason list before it is truncated to five (appending an empty list when
no pattern fired is the same as the guarded `extend` of the source). -/
def generateResult (sqrtFn : ℚ → ℚ) (stockCode now : String) (bars : List Bar)
    (latest prev : Row) (signals : Signals) (confidence : ℕ) : AnalysisResult :=
  let sap := signalActionOf confidence
  { stockCode := stockCode
    timestamp := now
    currentPrice := pyRound latest.close 2
    priceChange := pyRound ((latest.close - prev.close) / prev.close * 100) 2
    volume := pyInt latest.volume
    indicators :=
      { ma5 := latest.ma5.map (pyRound · 2)
        ma10 := latest.ma10.map (pyRound · 2)
        ma20 := latest.ma20.map (pyRound · 2)
        rsi := latest.rsi.map (pyRound · 2)
        macd := latest.macd.map (pyRound · 4)
        kdK := latest.k.map (pyRound · 2)
        kdD := latest.d.map (pyRound · 2)
        bbPos := latest.bbPos.map (pyRound · 3) }
    confidenceScore := pyRound (confidence : ℚ) 1
    signal := sap.1
    action := sap.2.1
    positionSuggestion := sap.2.2
    keyReasons := (signals.trend.reasons ++ signals.momentum.reasons ++
                   signals.volume.reasons ++ signals.oscillators.reasons ++
                   signals.patterns.patterns).take 5
    detailedSignals := signals
    riskMetrics := riskMetricsOf sqrtFn bars }

/-- Direct translation of `StockSignalAnalyzer.analyze` (lines 226–234),
composed with `calculate_all_indicators` the way the API routes invoke it. -/
def analyze (sqrtFn : ℚ → ℚ) (stockCode now : String) (bars : List Bar) : AnalyzeOut :=
  if bars.length < 30 then
    .failure { stockCode := stockCode, error := "数据不足或获取失败", timestamp := now }
  else
    let latest := Ind.enrichLast sqrtFn bars
    let prev := Ind.enrichLast sqrtFn bars.dropLast
    let signals := analyzeSignalsOf sqrtFn bars
    let confidence := calcConfidence signals
    .ok (generateResult sqrtFn stockCode now bars latest prev signals confidence)

end App2

namespace OldApp

/-! ### The older `StockAnalyzer` of `src/old/app.py` -/

/-- Direct translation of `_analyze_signals` in `src/old/app.py` (lines
236–276): trend and oscillator conditions as in the canonical module, the RSI
branch, and — the momentum difference — a plain *level* test
`MACD > MACD_signal` worth 15 points, with no look at the previous bar.  The
volume and patterns dictionaries are initialised but never scored (the `prev`
row is received, as in the source, but not read by any condition). -/
def analyzeSignals (latest : Row) (_prev : Row) : Signals :=
  let t1 := qGtO latest.close latest.ma20
  let t2 := oGtO latest.ma5 latest.ma10 && oGtO latest.ma10 latest.ma20
  let mLevel := oGtO latest.macd latest.macdSignal
  let o1 := oLtQ latest.k 20
  let o2 := oLtQ latest.bbPos (3/10)
  { trend :=
      { score := (if t1 then 15 else 0) + (if t2 then 10 else 0)
        reasons := (if t1 then ["价格站上20日线"] else []) ++
                   (if t2 then ["均线多头排列"] else []) }
    momentum :=
      { score := rsiBranchScore latest.rsi + (if mLevel then 15 else 0)
        reasons := rsiBranchReasons latest.rsi ++ (if mLevel then ["MACD金叉"] else []) }
    volume := { score := 0, reasons := [] }
    oscillators :=
      { score := (if o1 then 15 else 0) + (if o2 then 10 else 0)
        reasons := (if o1 then ["K值超卖"] else []) ++
                   (if o2 then ["接近布林带下轨"] else []) }
    patterns := { score := 0, patterns := [] } }

end OldApp

namespace Batch

/-! ### `BatchStockAnalyzer` of `src/mods/stock_analyzer.py` (lines 422–495)

The per-symbol body of the `analyze_all` loop sits inside `try/except`; any
exception is caught and the symbol skipped.  The loop body is therefore
modelled as an oracle `runSym : String → Except String AnalyzeOut`: an
`Except.error` models a raised exception (a computation error), `.ok
(.failure _)` models the `continue` taken when the data is empty/short or
`calculate_indicators` fails (the same `len < 30` condition), and `.ok (.ok
r)` a completed analysis.  Python `list.sort(key=..., reverse=True)` is a
stable descending sort, modelled as a stable insertion sort. -/

/-- Insert into a descending-sorted list: `x` is placed before the first
element `y` with `key y ≤ key x`.  Since every element already in the sorted
list came later in the input than `x`, this keeps ties in input order
(stability). -/
def insertDesc {α : Type} (key : α → ℚ) (x : α) : List α → List α
  | [] => [x]
  | y :: ys => if key y ≤ key x then x :: y :: ys else y :: insertDesc key x ys

/-- Stable descending sort by key (the behaviour of `list.sort(key=...,
reverse=True)`). -/
def sortDesc {α : Type} (key : α → ℚ) : List α → List α
  | [] => []
  | x :: xs => insertDesc key x (sortDesc key xs)

/-- The sort key used by `analyze_all`:
`x['analysis']['confidence_score']`. -/
def confKey (r : AnalysisResult) : ℚ := r.confidenceScore

/-- The collection phase of `analyze_all` (lines 451–472): failed symbols are
skipped, successful results are kept when `confidence_score >=
min_confidence`. -/
def collectOk (runSym : String → Except String AnalyzeOut) (minConf : ℚ)
    (codes : List String) : List AnalysisResult :=
  codes.filterMap fun code =>
    match runSym code with
    | .error _ => none
    | .ok (.failure _) => none
    | .ok (.ok r) => if minConf ≤ r.confidenceScore then some r else none

/-- `BatchStockAnalyzer.analyze_all`: collect, then sort by confidence,
descending. -/
def analyzeAll (runSym : String → Except String AnalyzeOut) (minConf : ℚ)
    (codes : List String) : List AnalysisResult :=
  sortDesc confKey (collectOk runSym minConf codes)

/-- `BatchStockAnalyzer.get_top_stocks` (lines 482–495): the first `n`
results of `analyze_all`. -/
def getTop (n : ℕ) (runSym : String → Except String AnalyzeOut) (minConf : ℚ)
    (codes : List String) : List AnalysisResult :=
  (analyzeAll runSym minConf codes).take n

/-- The oracle the repository actually instantiates the loop body with: fetch
the bars for a symbol and run the canonical `analyze` on them (a failed fetch
is an empty series, hence the short-series failure path). -/
def runSymOf (sqrtFn : ℚ → ℚ) (fetch : String → List Bar) (now : String) :
    String → Except String AnalyzeOut :=
  fun code => .ok (SA.analyze sqrtFn code now (fetch code))

theorem mem_insertDesc {α : Type} (key : α → ℚ) (x : α) (l : List α) (a : α) :
    a ∈ insertDesc key x l ↔ a = x ∨ a ∈ l := by
  induction l with
  | nil => simp [insertDesc]
  | cons y ys ih =>
      simp only [insertDesc]
      split
      · simp [List.mem_cons]
      · simp only [List.mem_cons, ih]
        tauto

theorem pairwise_insertDesc {α : Type} (key : α → ℚ) (x : α) (l : List α)
    (h : l.Pairwise (fun a b => key b ≤ key a)) :
    (insertDesc key x l).Pairwise (fun a b => key b ≤ key a) := by
  induction l with
  | nil => simp [insertDesc]
  | cons y ys ih =>
      rw [List.pairwise_cons] at h
      obtain ⟨hy, hys⟩ := h
      simp only [insertDesc]
      split
      · rename_i hle
        refine List.pairwise_cons.mpr ⟨?_, List.pairwise_cons.mpr ⟨hy, hys⟩⟩
        intro b hb
        rcases List.mem_cons.mp hb with rfl | hb
        · exact hle
        · exact le_trans (hy b hb) hle
      · rename_i hgt
        push_neg at hgt
        refine List.pairwise_cons.mpr ⟨?_, ih hys⟩
        intro b hb
        rcases (mem_insertDesc key x ys b).mp hb with rfl | hb
        · exact le_of_lt hgt
        · exact hy b hb

theorem mem_sortDesc {α : Type} (key : α → ℚ) (l : List α) (a : α) :
    a ∈ sortDesc key l ↔ a ∈ l := by
  induction l with
  | nil => simp [sortDesc]
  | cons x xs ih =>
      simp only [sortDesc, mem_insertDesc, List.mem_cons, ih]

theorem pairwise_sortDesc {α : Type} (key : α → ℚ) (l : List α) :
    (sortDesc key l).Pairwise (fun a b => key b ≤ key a) := by
  induction l with
  | nil => simp [sortDesc]
  | cons x xs ih => exact pairwise_insertDesc key x _ ih

theorem filter_insertDesc {α : Type} (key : α → ℚ) (q : ℚ) (x : α) (l : List α) :
    (insertDesc key x l).filter (fun a => decide (key a = q)) =
      if key x = q then x :: l.filter (fun a => decide (key a = q))
      else l.filter (fun a => decide (key a = q)) := by
  induction l with
  | nil =>
      by_cases hx : key x = q <;> simp [insertDesc, List.filter, hx]
  | cons y ys ih =>
      simp only [insertDesc]
      split
      · by_cases hx : key x = q <;> simp [List.filter_cons, hx]
      · rename_i hgt
        push_neg at hgt
        by_cases hx : key x = q <;> by_cases hy : key y = q
        · rw [hx, hy] at hgt
          exact absurd hgt (lt_irrefl q)
        all_goals simp [List.filter_cons, hx, hy, ih]

theorem filter_sortDesc {α : Type} (key : α → ℚ) (q : ℚ) (l : List α) :
    (sortDesc key l).filter (fun a => decide (key a = q)) =
      l.filter (fun a => decide (key a = q)) := by
  induction l with
  | nil => simp [sortDesc]
  | cons x xs ih =>
      rw [sortDesc, filter_insertDesc]
      by_cases hx : key x = q <;> simp [List.filter_cons, hx, ih]

theorem mem_collectOk (runSym : String → Except String AnalyzeOut) (minConf : ℚ)
    (codes : List String) (r : AnalysisResult) :
    r ∈ collectOk runSym minConf codes ↔
      ∃ code ∈ codes, runSym code = .ok (.ok r) ∧ minConf ≤ r.confidenceScore := by
  simp only [collectOk, List.mem_filterMap]
  constructor
  · rintro ⟨code, hc, hf⟩
    refine ⟨code, hc, ?_⟩
    cases hrs : runSym code with
    | error e => rw [hrs] at hf; exact absurd hf (by simp)
    | ok o =>
        cases o with
        | failure e => rw [hrs] at hf; exact absurd hf (by simp)
        | ok r' =>
            rw [hrs] at hf
            simp only at hf
            split at hf
            · rename_i hθ
              obtain rfl := Option.some_injective _ hf
              exact ⟨rfl, hθ⟩
            · exact absurd hf (by simp)
  · rintro ⟨code, hc, hrs, hθ⟩
    exact ⟨code, hc, by rw [hrs]; simp [hθ]⟩

theorem mem_analyzeAll (runSym : String → Except String AnalyzeOut) (minConf : ℚ)
    (codes : List String) (r : AnalysisResult) :
    r ∈ analyzeAll runSym minConf codes ↔
      ∃ code ∈ codes, runSym code = .ok (.ok r) ∧ minConf ≤ r.confidenceScore := by
  rw [analyzeAll, mem_sortDesc, mem_collectOk]

end Batch

namespace Spec

/-! ### Definitions written from the specification's words

These are *not* translations of the source; they restate what the spec (and
the claims derived from it) says, so that the source-derived definitions can
be compared against them. -/

/-- Spec §4.3, stated verbatim: confidence is the sum over the five
categories of `min(category.score, 30)`, clamped to `[0,100]` (scores are
naturals, so the lower clamp is automatic). -/
def specConfidence (s : Signals) : ℕ :=
  min (min s.trend.score 30 + min s.momentum.score 30 + min s.volume.score 30 +
       min s.oscillators.score 30 + min s.patterns.score 30) 100

/-- Claim C5 / spec §4.2, stated verbatim: the momentum category is the RSI
branch plus 15 points iff MACD strictly crosses above its signal line;
otherwise, when no crossing occurred, 15 points if MACD is above zero. -/
def specMomentum (latest prev : Row) : ℕ :=
  rsiBranchScore latest.rsi +
    (if macdCrossUp latest prev then 15
     else if oGtQ latest.macd 0 then 15 else 0)

end Spec

/-! ### Concrete inputs used by closed witness and counterexample theorems -/

/-- A concrete square-root stand-in used only to instantiate closed
statements; it satisfies the `sqrtFn 0 = 0` hypothesis of the theorems and
agrees with the real square root at `0`, the only point at which any closed
statement below forces its value to matter. -/
def sqrtZeroOne (x : ℚ) : ℚ := if x = 0 then 0 else 1

/-- A flat bar: all prices 10, volume 100. -/
def flatBar : Bar := { openP := 10, high := 10, low := 10, close := 10, volume := 100 }

/-- Thirty flat bars: a series whose 20-bar close window has zero variance. -/
def constBars : List Bar := List.replicate 30 flatBar

/-- Twenty-nine flat bars followed by a hammer-shaped bar
(`open=10.06, high=10.08, low=9.80, close=10.00`): every close is 10, but the
last candle is a hammer, so only the patterns category scores. -/
def hammerSeries : List Bar :=
  List.replicate 29 flatBar ++
    [{ openP := 503/50, high := 252/25, low := 49/5, close := 10, volume := 100 }]

/-- Twenty bars with strictly increasing closes 1,2,…,20: the 14-bar average
loss is 0 and the 14-bar average gain is 1. -/
def upBars : List Bar :=
  (List.range 20).map fun i =>
    { openP := (i : ℚ) + 1, high := (i : ℚ) + 1, low := (i : ℚ) + 1,
      close := (i : ℚ) + 1, volume := 1 }

/-! ### Helper lemmas -/

/-- `halfEven` is the identity on integers. -/
theorem halfEven_intCast (m : ℤ) : halfEven (m : ℚ) = m := by
  unfold halfEven
  rw [Int.floor_intCast]
  norm_num

/-- Python `round` is the identity on a natural number, whatever the number
of digits kept. -/
theorem pyRound_natCast (n d : ℕ) : pyRound (n : ℚ) d = n := by
  unfold pyRound
  rw [show ((n : ℚ) * 10 ^ d) = (((n * 10 ^ d : ℕ) : ℤ) : ℚ) by push_cast; ring]
  rw [halfEven_intCast]
  push_cast
  rw [mul_div_assoc, div_self (by positivity), mul_one]

/-- Every element of a `zipWith` is an image of the combining function. -/
theorem exists_of_mem_zipWith {α β γ : Type} (f : α → β → γ) (l1 : List α) (l2 : List β)
    (x : γ) (hx : x ∈ List.zipWith f l1 l2) : ∃ a b, x = f a b := by
  induction l1 generalizing l2 with
  | nil => simp at hx
  | cons a l ih =>
      cases l2 with
      | nil => simp at hx
      | cons b l2 =>
          rcases List.mem_cons.mp hx with rfl | hx
          · exact ⟨a, b, rfl⟩
          · exact ih l2 hx

/-- Every entry of the gain column is nonnegative. -/
theorem gainCol_nonneg (cs : List ℚ) : ∀ x ∈ Ind.gainCol cs, 0 ≤ x := by
  intro x hx
  rcases List.mem_cons.mp hx with rfl | hx
  · exact le_refl 0
  · obtain ⟨a, b, rfl⟩ := exists_of_mem_zipWith _ _ _ x hx
    exact le_max_right _ _

/-- Every entry of the loss column is nonnegative. -/
theorem lossCol_nonneg (cs : List ℚ) : ∀ x ∈ Ind.lossCol cs, 0 ≤ x := by
  intro x hx
  rcases List.mem_cons.mp hx with rfl | hx
  · exact le_refl 0
  · obtain ⟨a, b, rfl⟩ := exists_of_mem_zipWith _ _ _ x hx
    exact le_max_right _ _

/-- A defined 14-bar average gain is nonnegative. -/
theorem avgGainLast_nonneg (cs : List ℚ) (g : ℚ) (h : Ind.avgGainLast cs = some g) :
    0 ≤ g := by
  unfold Ind.avgGainLast Ind.smaLast at h
  split at h
  · exact absurd h (by simp)
  · obtain rfl := Option.some_injective _ h
    apply div_nonneg
    · exact List.sum_nonneg fun x hx => gainCol_nonneg cs x (List.drop_subset _ _ hx)
    · norm_num

/-- A defined 14-bar average loss is nonnegative. -/
theorem avgLossLast_nonneg (cs : List ℚ) (l : ℚ) (h : Ind.avgLossLast cs = some l) :
    0 ≤ l := by
  unfold Ind.avgLossLast Ind.smaLast at h
  split at h
  · exact absurd h (by simp)
  · obtain rfl := Option.some_injective _ h
    apply div_nonneg
    · exact List.sum_nonneg fun x hx => lossCol_nonneg cs x (List.drop_subset _ _ hx)
    · norm_num

/-- A populated result of the canonical `analyze` carries the symbol it was
asked about. -/
theorem analyze_ok_stockCode (sqrtFn : ℚ → ℚ) (stockCode now : String) (bars : List Bar)
    (r : AnalysisResult) (h : SA.analyze sqrtFn stockCode now bars = .ok r) :
    r.stockCode = stockCode := by
  unfold SA.analyze at h
  split at h
  · exact absurd h (by simp)
  · injection h with h'
    rw [← h']
    rfl

/-- When every symbol of the batch fails, nothing is collected. -/
theorem collectOk_eq_nil (runSym : String → Except String AnalyzeOut) (minConf : ℚ)
    (codes : List String) (h : ∀ code ∈ codes, ∃ e, runSym code = .error e) :
    Batch.collectOk runSym minConf codes = [] := by
  induction codes with
  | nil => rfl
  | cons c cs ih =>
      obtain ⟨e, he⟩ := h c (List.mem_cons_self c cs)
      unfold Batch.collectOk at ih ⊢
      rw [List.filterMap_cons]
      simp only [he]
      exact ih fun c' hc' => h c' (List.mem_cons_of_mem _ hc')

/-! ### Claim theorems -/

/-- C2: for every Series with fewer than 30 bars (the empty series included),
`analyze` returns the empty-result variant — a failure record carrying only
the symbol, the fixed error message and the timestamp, with no indicators,
confidence or action fields at all — never a populated `AnalysisResult` and
never partial indicators. -/
theorem C2_insufficient_history (sqrtFn : ℚ → ℚ) (stockCode now : String)
    (bars : List Bar) (h : bars.length < 30) :
    SA.analyze sqrtFn stockCode now bars =
      .failure { stockCode := stockCode, error := "数据不足或获取失败", timestamp := now } := by
  unfold SA.analyze
  rw [if_pos h]

/-- Witness for C2 at the empty series. -/
theorem C2_insufficient_history_witness :
    SA.analyze sqrtZeroOne "sh600519" "t0" [] =
      .failure { stockCode := "sh600519", error := "数据不足或获取失败", timestamp := "t0" } :=
  C2_insufficient_history sqrtZeroOne "sh600519" "t0" [] (by decide)

/-- C9: two invocations of the canonical `analyze` on identical bar data
yield results that are identical in every field except the timestamp:
replacing the timestamp of the first run by the second timestamp gives
exactly the second run.  The embedding threads the only impure input of the
source, `datetime.now()`, as the explicit `now` argument, so this states that
no other field depends on it. -/
theorem C9_determinism (sqrtFn : ℚ → ℚ) (stockCode t1 t2 : String) (bars : List Bar) :
    (SA.analyze sqrtFn stockCode t1 bars).setStamp t2 =
      SA.analyze sqrtFn stockCode t2 bars := by
  unfold SA.analyze
  by_cases h : bars.length < 30
  · rw [if_pos h, if_pos h]
    rfl
  · rw [if_neg h, if_neg h]
    rfl

/-- C10: in the canonical analyzer module the patterns category always has
score 0 and an empty pattern list — `_analyze_signals` initialises it and no
code ever adds to it — so candle patterns never contribute to the confidence,
which equals the clamped sum of the four capped remaining categories. -/
theorem C10_patterns_never_score (latest prev : Row) :
    (SA.analyzeSignals latest prev).patterns.score = 0
    ∧ (SA.analyzeSignals latest prev).patterns.patterns = []
    ∧ SA.calcConfidence (SA.analyzeSignals latest prev) =
        min (min (SA.analyzeSignals latest prev).trend.score 30 +
             min (SA.analyzeSignals latest prev).momentum.score 30 +
             min (SA.analyzeSignals latest prev).volume.score 30 +
             min (SA.analyzeSignals latest prev).oscillators.score 30) 100 := by
  refine ⟨rfl, rfl, ?_⟩
  show min (_ + min (SA.analyzeSignals latest prev).patterns.score 30) 100 = _
  rw [show (SA.analyzeSignals latest prev).patterns.score = 0 from rfl]
  norm_num

/-- C1 (amended): for every series of at least 30 bars, the *canonical*
module's `analyze` returns exactly the spec confidence — the sum over the
five categories (patterns included, exactly once) of `min(score, 30)`,
clamped to `[0,100]` — while the `src/app2.py` variant adds the patterns
score a *second* time, uncapped, before clamping. -/
theorem C1_confidence_formula (sqrtFn : ℚ → ℚ) (stockCode now : String) (bars : List Bar)
    (h : 30 ≤ bars.length) :
    (SA.analyze sqrtFn stockCode now bars).confidenceQ
      = (SA.analyze sqrtFn stockCode now bars).sigs.map
          (fun s => ((Spec.specConfidence s : ℕ) : ℚ))
    ∧ (App2.analyze sqrtFn stockCode now bars).confidenceQ
      = (App2.analyze sqrtFn stockCode now bars).sigs.map
          (fun s => ((min (min s.trend.score 30 + min s.momentum.score 30 +
                           min s.volume.score 30 + min s.oscillators.score 30 +
                           min s.patterns.score 30 + s.patterns.score) 100 : ℕ) : ℚ)) := by
  have hn : ¬ bars.length < 30 := by omega
  constructor
  · unfold SA.analyze
    rw [if_neg hn]
    simp only [AnalyzeOut.confidenceQ, AnalyzeOut.sigs, Option.map_some', SA.generateResult]
    rw [pyRound_natCast]
    rfl
  · unfold App2.analyze
    rw [if_neg hn]
    simp only [AnalyzeOut.confidenceQ, AnalyzeOut.sigs, Option.map_some', App2.generateResult]
    rw [pyRound_natCast]
    rfl

/-- Witness for C1 at a concrete 30-bar series. -/
theorem C1_confidence_formula_witness :
    (SA.analyze sqrtZeroOne "X" "T" hammerSeries).confidenceQ
      = (SA.analyze sqrtZeroOne "X" "T" hammerSeries).sigs.map
          (fun s => ((Spec.specConfidence s : ℕ) : ℚ))
    ∧ (App2.analyze sqrtZeroOne "X" "T" hammerSeries).confidenceQ
      = (App2.analyze sqrtZeroOne "X" "T" hammerSeries).sigs.map
          (fun s => ((min (min s.trend.score 30 + min s.momentum.score 30 +
                           min s.volume.score 30 + min s.oscillators.score 30 +
                           min s.patterns.score 30 + s.patterns.score) 100 : ℕ) : ℚ)) :=
  C1_confidence_formula sqrtZeroOne "X" "T" hammerSeries (by decide)

set_option maxRecDepth 16000 in
/-- Counterexample to C1 as stated: on a 30-bar series whose last candle is a
hammer (29 flat bars, then `open=10.06, high=10.08, low=9.80, close=10.00`),
the `src/app2.py` `analyze` — one of the claim's two cited implementations —
returns confidence 20, while the claimed formula
`clamp(Σ min(score, 30))` over its own five category scores gives 10: the
patterns category contributes twice, not "exactly once". -/
theorem C1_counterexample :
    (App2.analyze sqrtZeroOne "X" "T" hammerSeries).confidenceQ = some 20
    ∧ (App2.analyze sqrtZeroOne "X" "T" hammerSeries).sigs.map
        (fun s => ((Spec.specConfidence s : ℕ) : ℚ)) = some 10 := by
  constructor
  · with_unfolding_all decide
  · with_unfolding_all decide

/-- C4: on every series, every defined RSI14 value lies in `[0,100]` (a NaN —
the zero-gain, zero-loss window — is the only undefined case), and whenever
the 14-bar average loss is 0 while the 14-bar average gain is positive, the
RSI is defined and equals exactly 100, never NaN or infinity.  Since the RSI
at any bar equals `rsiLast` of the corresponding prefix of the series, the
universal quantification over `bars` covers every position of every series. -/
theorem C4_rsi_bounds (bars : List Bar) (r g : ℚ) :
    (Ind.rsiLast (Ind.closes bars) = some r → 0 ≤ r ∧ r ≤ 100)
    ∧ (Ind.avgLossLast (Ind.closes bars) = some 0 →
       Ind.avgGainLast (Ind.closes bars) = some g → 0 < g →
       Ind.rsiLast (Ind.closes bars) = some 100) := by
  constructor
  · intro hr
    unfold Ind.rsiLast at hr
    cases hg : Ind.avgGainLast (Ind.closes bars) with
    | none => rw [hg] at hr; exact absurd hr (by simp)
    | some gv =>
        cases hl : Ind.avgLossLast (Ind.closes bars) with
        | none => rw [hg, hl] at hr; exact absurd hr (by simp)
        | some lv =>
            rw [hg, hl] at hr
            simp only at hr
            by_cases hl0 : lv = 0
            · rw [if_pos hl0] at hr
              by_cases hg0 : gv = 0
              · rw [if_pos hg0] at hr; exact absurd hr (by simp)
              · rw [if_neg hg0] at hr
                obtain rfl := Option.some_injective _ hr.symm
                norm_num
            · rw [if_neg hl0] at hr
              obtain rfl := Option.some_injective _ hr.symm
              have hgn : 0 ≤ gv := avgGainLast_nonneg _ _ hg
              have hln : 0 ≤ lv := avgLossLast_nonneg _ _ hl
              have hlp : 0 < lv := lt_of_le_of_ne hln (Ne.symm hl0)
              have hrs : 0 ≤ gv / lv := div_nonneg hgn (le_of_lt hlp)
              have h1 : (0 : ℚ) < 1 + gv / lv := by linarith
              constructor
              · have hle : 100 / (1 + gv / lv) ≤ 100 := by
                  rw [div_le_iff₀ h1]; nlinarith
                linarith
              · have hpos : 0 < 100 / (1 + gv / lv) := by positivity
                linarith
  · intro hl hg hgpos
    unfold Ind.rsiLast
    rw [hg, hl]
    simp only [if_true]
    rw [if_neg (ne_of_gt hgpos)]

/-- Witness for C4 at a 20-bar strictly rising series: the RSI is defined and
equals exactly 100, the average loss is 0, the average gain is 1. -/
theorem C4_rsi_bounds_witness :
    (0 ≤ (100 : ℚ) ∧ (100 : ℚ) ≤ 100)
    ∧ Ind.rsiLast (Ind.closes upBars) = some 100 :=
  ⟨(C4_rsi_bounds upBars 100 1).1 (by with_unfolding_all decide),
   (C4_rsi_bounds upBars 100 1).2 (by with_unfolding_all decide)
     (by with_unfolding_all decide) (by norm_num)⟩

/-- Latest row for the C5 counterexample: MACD (1) is above zero and above
its signal line (1/2), RSI is NaN, but no crossing occurred (see `c5Prev`). -/
def c5Latest : Row :=
  { close := 10, volume := 100, ma5 := some 10, ma10 := some 10, ma20 := some 10,
    ma30 := none, ma60 := none, macd := some 1, macdSignal := some (1/2),
    rsi := none, bbPos := none, k := none, d := none,
    volumeMa5 := some 100, volFactor := some 1 }

/-- Previous row for the C5 counterexample: MACD was already above its signal
line, so no upward crossing happened between the two bars. -/
def c5Prev : Row := c5Latest

/-- Counterexample to C5 as stated: on a bar where MACD is above zero and no
crossing occurred, the claim's rule awards the momentum category 15 points
(the above-zero fallback), but the canonical `_analyze_signals` — which has
no such fallback — awards 0. -/
theorem C5_counterexample :
    (SA.analyzeSignals c5Latest c5Prev).momentum.score ≠ Spec.specMomentum c5Latest c5Prev := by
  with_unfolding_all decide

/-- C5 (amended): in the canonical module the momentum category is the RSI
branch plus 15 points exactly on a strict upward crossing (previous
`MACD ≤ signal` and latest `MACD > signal`; a level test alone earns
nothing), with *no* above-zero fallback; in `src/app2.py` the crossing is
worth 25 points (not 15), with a 15-point above-zero fallback; in
`src/old/app.py` a plain level test `MACD > signal` is worth 15 points. -/
theorem C5_momentum_rules (latest prev : Row) :
    (SA.analyzeSignals latest prev).momentum.score
      = rsiBranchScore latest.rsi + (if macdCrossUp latest prev then 15 else 0)
    ∧ (App2.analyzeMomentum latest prev).score
      = rsiBranchScore latest.rsi +
          (if macdCrossUp latest prev then 25
           else if oGtQ latest.macd 0 then 15 else 0)
    ∧ (OldApp.analyzeSignals latest prev).momentum.score
      = rsiBranchScore latest.rsi +
          (if oGtO latest.macd latest.macdSignal then 15 else 0) :=
  ⟨rfl, rfl, rfl⟩

/-- C6 (amended): for a series whose latest 20-bar close window has zero
variance (bands coincide), `BB_position` is *NaN* (undefined), not the
neutral 0.5 — the `row.get('BB_position', 0.5)` default of the scorer only
applies when the column is absent, which it never is after
`calculate_indicators`.  The NaN is still handled in place: every comparison
against it is false, so the oscillator category gets no Bollinger points
(its score reduces to the `%K` part alone), and `analyze` still returns a
populated result, never an error. -/
theorem C6_bbpos_zero_variance (sqrtFn : ℚ → ℚ) (h0 : sqrtFn 0 = 0)
    (stockCode now : String) (bars : List Bar) (prev : Row)
    (hv : Ind.var20 (Ind.closes bars) = some 0) (h30 : 30 ≤ bars.length) :
    Ind.bbPosLast sqrtFn (Ind.closes bars) = none
    ∧ (SA.analyzeSignals (Ind.enrichLast sqrtFn bars) prev).oscillators.score
        = (if oLtQ (Ind.enrichLast sqrtFn bars).k 20 then 15 else 0)
    ∧ (∃ r, SA.analyze sqrtFn stockCode now bars = .ok r) := by
  have h20 : ¬ (Ind.closes bars).length < 20 := by
    intro hlt
    rw [Ind.var20, if_pos hlt] at hv
    exact absurd hv (by simp)
  have hm : Ind.smaLast 20 (Ind.closes bars) =
      some ((Ind.lastN 20 (Ind.closes bars)).sum / 20) := by
    rw [Ind.smaLast, if_neg h20]
    norm_num
  have h1 : Ind.bbPosLast sqrtFn (Ind.closes bars) = none := by
    rw [Ind.bbPosLast, hv, hm]
    simp only
    rw [if_pos (by rw [h0]; ring)]
  refine ⟨h1, ?_, ?_⟩
  · have hbb : (Ind.enrichLast sqrtFn bars).bbPos = none := h1
    simp [SA.analyzeSignals, hbb, oLtQ]
  · rw [SA.analyze, if_neg (by omega)]
    exact ⟨_, rfl⟩

/-- Witness for C6 at thirty flat bars (a zero-variance window). -/
theorem C6_bbpos_zero_variance_witness :
    Ind.bbPosLast sqrtZeroOne (Ind.closes constBars) = none
    ∧ (SA.analyzeSignals (Ind.enrichLast sqrtZeroOne constBars)
         (Ind.enrichLast sqrtZeroOne constBars.dropLast)).oscillators.score
        = (if oLtQ (Ind.enrichLast sqrtZeroOne constBars).k 20 then 15 else 0)
    ∧ (∃ r, SA.analyze sqrtZeroOne "X" "T" constBars = .ok r) :=
  C6_bbpos_zero_variance sqrtZeroOne (by norm_num [sqrtZeroOne]) "X" "T" constBars
    (Ind.enrichLast sqrtZeroOne constBars.dropLast)
    (by with_unfolding_all decide) (by decide)

/-- Counterexample to C6 as stated: thirty flat bars give a zero-variance
20-bar window (`var20 = 0`, upper band = lower band), yet the carried
`BB_position` is NaN (`none`), not the claimed neutral 0.5. -/
theorem C6_counterexample :
    Ind.var20 (Ind.closes constBars) = some 0
    ∧ Ind.bbPosLast sqrtZeroOne (Ind.closes constBars) ≠ some (1/2) := by
  constructor
  · with_unfolding_all decide
  · with_unfolding_all decide


/-- The bar of the C7 scenario: `open=10.00, high=10.05, low=9.50,
close=9.95`.  Its body is 0.05, its lower shadow 0.45, its upper shadow 0.05. -/
def c7ClaimBar : Bar :=
  { openP := 10, high := 201/20, low := 19/2, close := 199/20, volume := 0 }

/-- The same bar with the high lowered to 10.02, so the upper shadow (0.02)
drops below half the body (0.025). -/
def c7OkBar : Bar :=
  { openP := 10, high := 501/50, low := 19/2, close := 199/20, volume := 0 }

/-- A five-bar tail ending in `c7OkBar` (four flat bars before it, so no
morning star can fire). -/
def c7Tail : List Bar := List.replicate 4 flatBar ++ [c7OkBar]

set_option maxRecDepth 4000 in
/-- Counterexample to C7 as stated: the scenario bar `open=10.00, high=10.05,
low=9.50, close=9.95` is *not* flagged by `_is_hammer`: its upper shadow
(0.05) is not strictly less than half its body (0.025), so the rule the claim
itself spells out rejects the bar. -/
theorem C7_counterexample : App2.isHammer c7ClaimBar = false := by
  with_unfolding_all decide

set_option maxRecDepth 4000 in
/-- C7 (amended): the scenario bar is rejected by the hammer rule (upper
shadow 0.05 is not < 0.5 × body = 0.025); a bar whose upper shadow is
genuinely negligible — the same bar with `high = 10.02` — is flagged, and the
pattern detector then awards the patterns category exactly the hammer entry
and 10 points. -/
theorem C7_hammer_rule :
    App2.isHammer c7ClaimBar = false
    ∧ App2.isHammer c7OkBar = true
    ∧ (App2.checkPatterns c7Tail).score = 10
    ∧ (App2.checkPatterns c7Tail).patterns = ["锤子线形态"] := by
  refine ⟨?_, ?_, ?_, ?_⟩
  · with_unfolding_all decide
  · with_unfolding_all decide
  · with_unfolding_all decide
  · with_unfolding_all decide

/-- C3: for every symbol list, minimum-confidence threshold and result cap,
the batch result (`get_top_stocks` over `analyze_all`) (a) has length at most
the cap, (b) is sorted descending by confidence, (c) contains only successful
analyses whose confidence clears the threshold, and (d) is stable: for every
confidence value, the tied results appear in exactly the collection order,
which is the input order (so ties preserve the original input order). -/
theorem C3_batch_order (runSym : String → Except String AnalyzeOut) (minConf : ℚ)
    (cap : ℕ) (codes : List String) :
    (Batch.getTop cap runSym minConf codes).length ≤ cap
    ∧ (Batch.getTop cap runSym minConf codes).Pairwise
        (fun a b => Batch.confKey b ≤ Batch.confKey a)
    ∧ (∀ r ∈ Batch.getTop cap runSym minConf codes,
        ∃ code ∈ codes, runSym code = .ok (.ok r) ∧ minConf ≤ r.confidenceScore)
    ∧ (∀ q : ℚ,
        (Batch.analyzeAll runSym minConf codes).filter
            (fun r => decide (Batch.confKey r = q))
          = (Batch.collectOk runSym minConf codes).filter
              (fun r => decide (Batch.confKey r = q))) := by
  refine ⟨?_, ?_, ?_, ?_⟩
  · rw [Batch.getTop, List.length_take]
    exact min_le_left _ _
  · exact List.Pairwise.sublist (List.take_sublist _ _) (Batch.pairwise_sortDesc _ _)
  · intro r hr
    exact (Batch.mem_analyzeAll _ _ _ _).mp (List.take_subset _ _ hr)
  · intro q
    exact Batch.filter_sortDesc _ _ _

/-- A concrete populated result used to instantiate the batch witnesses. -/
def wResult : AnalysisResult :=
  { stockCode := "A", timestamp := "T", currentPrice := 10, priceChange := 0,
    volume := 100,
    indicators := { ma5 := none, ma10 := none, ma20 := none, rsi := none,
                    macd := none, kdK := none, kdD := none, bbPos := none },
    confidenceScore := 50, signal := "关注", action := "HOLD",
    positionSuggestion := "观望", keyReasons := [],
    detailedSignals :=
      { trend := { score := 0, reasons := [] },
        momentum := { score := 0, reasons := [] },
        volume := { score := 0, reasons := [] },
        oscillators := { score := 0, reasons := [] },
        patterns := { score := 0, patterns := [] } },
    riskMetrics := none }

/-- A concrete batch oracle: symbol `A` succeeds with `wResult`, everything
else raises. -/
def wRun : String → Except String AnalyzeOut :=
  fun c => if c = "A" then .ok (.ok wResult) else .error "fail"

/-- Witness for C3: applying the theorem to the concrete two-symbol batch
shows the only surviving result originated from a successful analysis above
the threshold. -/
theorem C3_batch_order_witness :
    ∃ code ∈ ["A", "B"], wRun code = .ok (.ok wResult)
      ∧ (0 : ℚ) ≤ wResult.confidenceScore :=
  (C3_batch_order wRun 0 3 ["A", "B"]).2.2.1 wResult (by
    rw [show Batch.getTop 3 wRun 0 ["A", "B"] = [wResult] from by with_unfolding_all rfl]
    exact List.mem_singleton.mpr rfl)

/-- C8: every element of a batch result originates from a symbol whose
processing succeeded and cleared the threshold — any symbol whose processing
failed is skipped and excluded; if every symbol fails the batch returns the
empty list (it never raises: the model of the `try/except` loop body is a
total function); and, for the concrete per-symbol pipeline the repository
instantiates the loop with, a symbol with fewer than 30 fetched bars (a
failed fetch is an empty series) never appears in the output. -/
theorem C8_failure_isolation (runSym : String → Except String AnalyzeOut) (minConf : ℚ)
    (codes : List String) (sqrtFn : ℚ → ℚ) (fetch : String → List Bar) (now : String) :
    (∀ r ∈ Batch.analyzeAll runSym minConf codes,
        ∃ code ∈ codes, runSym code = .ok (.ok r) ∧ minConf ≤ r.confidenceScore)
    ∧ ((∀ code ∈ codes, ∃ e, runSym code = .error e) →
        Batch.analyzeAll runSym minConf codes = [])
    ∧ (∀ code ∈ codes, (fetch code).length < 30 →
        ∀ r ∈ Batch.analyzeAll (Batch.runSymOf sqrtFn fetch now) minConf codes,
          r.stockCode ≠ code) := by
  refine ⟨?_, ?_, ?_⟩
  · intro r hr
    exact (Batch.mem_analyzeAll _ _ _ _).mp hr
  · intro hfail
    rw [Batch.analyzeAll, collectOk_eq_nil runSym minConf codes hfail]
    rfl
  · intro code hc hshort r hr hcode
    obtain ⟨c2, hc2, hrun, hconf⟩ :=
      (Batch.mem_analyzeAll (Batch.runSymOf sqrtFn fetch now) minConf codes r).mp hr
    rw [Batch.runSymOf] at hrun
    have heq : SA.analyze sqrtFn c2 now (fetch c2) = .ok r := by
      injection hrun
    have hst : r.stockCode = c2 := analyze_ok_stockCode _ _ _ _ _ heq
    have hcc : c2 = code := by rw [← hst, hcode]
    subst hcc
    rw [SA.analyze, if_pos hshort] at heq
    exact absurd heq (by simp)

/-- Witness for C8: a batch in which the only symbol raises returns the empty
list rather than propagating the failure. -/
theorem C8_failure_isolation_witness :
    Batch.analyzeAll (fun _ => .error "boom") 0 ["A"] = [] :=
  (C8_failure_isolation (fun _ => .error "boom") 0 ["A"] sqrtZeroOne
      (fun _ => []) "T").2.1 (fun _ _ => ⟨"boom", rfl⟩)
